import Mathlib

/-!
Verification of the invoice statistics aggregation of
`src/lib/firebase/firestore.ts` (`getInvoiceStats`, lines 213-249).

The aggregation iterates once over the user's invoices with `forEach`,
mutating an accumulator record; we embed the loop body as a pure `step`
function and the whole pass as a `List.foldl`.  The source computes
`const today = new Date()` inside the function; following the contract
`computeStats(invoices, asOf)` of the specification, the as-of instant is
an explicit parameter `asOf` here, so that the dependence of the output on
that instant can be stated and proved.

The `Invoice` and `InvoiceStats` interfaces are imported by the source
from `../types`, whose invoice declarations are not part of the repository
snapshot; the record shapes below are modelled from the specification's
data model (section 3), restricted to the fields the aggregation reads.
Monetary amounts are modelled as rationals (exact decimal arithmetic) and
timestamps as integers (JavaScript `Date` comparison is numeric).
-/

/-- Modelled from the spec: the closed enumeration of invoice status values
(`draft`, `sent`, `paid`, `overdue`, `cancelled`); the declaring file
`lib/types` is not in the snapshot. -/
inductive InvoiceStatus where
  | draft
  | sent
  | paid
  | overdue
  | cancelled
deriving DecidableEq, Repr

/-- Modelled from the spec: the subset of the `Invoice` record read by
`getInvoiceStats`: `status`, `total` (a decimal amount, as a rational) and
`dueDate` (a timestamp, as an integer). -/
structure Invoice where
  status : InvoiceStatus
  total : ℚ
  dueDate : Int
deriving DecidableEq, Repr

/-- Modelled from the spec: the `InvoiceStats` record returned by
`getInvoiceStats` (counts and monetary sums). -/
@[ext]
structure InvoiceStats where
  totalInvoices : Nat
  paidInvoices : Nat
  unpaidInvoices : Nat
  overdueInvoices : Nat
  totalRevenue : ℚ
  outstandingAmount : ℚ
deriving DecidableEq, Repr

/-- The initial accumulator of `getInvoiceStats` (firestore.ts lines
219-226): `totalInvoices` is the length of the fetched list, every other
field starts at zero. -/
def initStats (invoices : List Invoice) : InvoiceStats :=
  { totalInvoices := invoices.length
    paidInvoices := 0
    unpaidInvoices := 0
    overdueInvoices := 0
    totalRevenue := 0
    outstandingAmount := 0 }

/-- One iteration of the `invoices.forEach` loop body of `getInvoiceStats`
(firestore.ts lines 230-242).  A paid invoice feeds `paidInvoices` and
`totalRevenue`; any other invoice feeds `unpaidInvoices` and
`outstandingAmount`, and additionally `overdueInvoices` when
`invoice.dueDate < today && invoice.status !== "paid"` — the redundant
second conjunct of the source is kept as written. -/
def step (asOf : Int) (stats : InvoiceStats) (invoice : Invoice) : InvoiceStats :=
  if invoice.status = InvoiceStatus.paid then
    { stats with
        paidInvoices := stats.paidInvoices + 1
        totalRevenue := stats.totalRevenue + invoice.total }
  else
    let stats1 :=
      { stats with
          unpaidInvoices := stats.unpaidInvoices + 1
          outstandingAmount := stats.outstandingAmount + invoice.total }
    if invoice.dueDate < asOf ∧ invoice.status ≠ InvoiceStatus.paid then
      { stats1 with overdueInvoices := stats1.overdueInvoices + 1 }
    else
      stats1

/-- The aggregation of `getInvoiceStats` (firestore.ts lines 219-244): one
left-to-right pass over the invoice list, starting from `initStats`, with
the as-of instant (`const today = new Date()` in the source) made an
explicit parameter per the specification's contract `computeStats`. -/
def computeStats (invoices : List Invoice) (asOf : Int) : InvoiceStats :=
  invoices.foldl (step asOf) (initStats invoices)

/-- Boolean test for a paid invoice. -/
def paidB (i : Invoice) : Bool :=
  decide (i.status = InvoiceStatus.paid)

/-- Boolean test for a non-paid invoice. -/
def unpaidB (i : Invoice) : Bool :=
  decide (¬ i.status = InvoiceStatus.paid)

/-- Boolean test for an overdue invoice: non-paid and past due as of
`asOf`. -/
def overdueB (asOf : Int) (i : Invoice) : Bool :=
  decide (¬ i.status = InvoiceStatus.paid ∧ i.dueDate < asOf)

/-- Modelled from the spec (section 4.1, the per-invoice rule restated as
a closed form): `totalInvoices` is the input length, `paidInvoices` counts
the paid invoices, `unpaidInvoices` counts the rest, `overdueInvoices`
counts the non-paid invoices past due as of `asOf`, `totalRevenue` sums
`total` over the paid invoices and `outstandingAmount` sums `total` over
the rest. -/
def specStats (invoices : List Invoice) (asOf : Int) : InvoiceStats :=
  { totalInvoices := invoices.length
    paidInvoices := invoices.countP paidB
    unpaidInvoices := invoices.countP unpaidB
    overdueInvoices := invoices.countP (overdueB asOf)
    totalRevenue := ((invoices.filter paidB).map Invoice.total).sum
    outstandingAmount := ((invoices.filter unpaidB).map Invoice.total).sum }

/-- The sum of the `total` field over a list of invoices. -/
def totalOf (invoices : List Invoice) : ℚ :=
  (invoices.map Invoice.total).sum

lemma foldl_step_closed (asOf : Int) (l : List Invoice) :
    ∀ s : InvoiceStats,
      l.foldl (step asOf) s =
        { totalInvoices := s.totalInvoices
          paidInvoices := s.paidInvoices + l.countP paidB
          unpaidInvoices := s.unpaidInvoices + l.countP unpaidB
          overdueInvoices := s.overdueInvoices + l.countP (overdueB asOf)
          totalRevenue := s.totalRevenue + ((l.filter paidB).map Invoice.total).sum
          outstandingAmount :=
            s.outstandingAmount + ((l.filter unpaidB).map Invoice.total).sum } := by
  induction l with
  | nil => intro s; simp
  | cons i is ih =>
      intro s
      rw [List.foldl_cons, ih]
      by_cases hp : i.status = InvoiceStatus.paid
      · ext <;>
          simp [step, hp, paidB, unpaidB, overdueB, List.countP_cons,
            List.filter_cons] <;>
          ring
      · by_cases hd : i.dueDate < asOf
        · ext <;>
            simp [step, hp, hd, paidB, unpaidB, overdueB, List.countP_cons,
              List.filter_cons] <;>
            ring
        · ext <;>
            simp [step, hp, hd, paidB, unpaidB, overdueB, List.countP_cons,
              List.filter_cons] <;>
            ring

lemma computeStats_eq_specStats (l : List Invoice) (asOf : Int) :
    computeStats l asOf = specStats l asOf := by
  unfold computeStats initStats specStats
  rw [foldl_step_closed]
  simp

lemma countP_paid_add_countP_unpaid (l : List Invoice) :
    l.countP paidB + l.countP unpaidB = l.length := by
  induction l with
  | nil => simp
  | cons i is ih =>
      by_cases hp : i.status = InvoiceStatus.paid <;>
        simp [List.countP_cons, paidB, unpaidB, hp] <;> omega

lemma countP_overdue_le_countP_unpaid (asOf : Int) (l : List Invoice) :
    l.countP (overdueB asOf) ≤ l.countP unpaidB := by
  induction l with
  | nil => simp
  | cons i is ih =>
      simp only [List.countP_cons, overdueB, unpaidB]
      by_cases hp : i.status = InvoiceStatus.paid <;>
        by_cases hd : i.dueDate < asOf <;> simp [hp, hd] <;> omega

lemma sum_filter_paid_add_sum_filter_unpaid (l : List Invoice) :
    ((l.filter paidB).map Invoice.total).sum
        + ((l.filter unpaidB).map Invoice.total).sum
      = totalOf l := by
  induction l with
  | nil => simp [totalOf]
  | cons i is ih =>
      by_cases hp : i.status = InvoiceStatus.paid <;>
        simp [List.filter_cons, paidB, unpaidB, hp, totalOf] at ih ⊢ <;>
        linarith

/-- C1: for every input list of invoices and every as-of instant, the stats
returned by the aggregation satisfy
`paidInvoices + unpaidInvoices = totalInvoices`. -/
theorem computeStats_paid_add_unpaid (invoices : List Invoice) (asOf : Int) :
    (computeStats invoices asOf).paidInvoices
        + (computeStats invoices asOf).unpaidInvoices
      = (computeStats invoices asOf).totalInvoices := by
  rw [computeStats_eq_specStats]
  exact countP_paid_add_countP_unpaid invoices

/-- C2: for every input list of invoices and every as-of instant, the stats
returned by the aggregation satisfy `overdueInvoices ≤ unpaidInvoices`. -/
theorem computeStats_overdue_le_unpaid (invoices : List Invoice) (asOf : Int) :
    (computeStats invoices asOf).overdueInvoices
      ≤ (computeStats invoices asOf).unpaidInvoices := by
  rw [computeStats_eq_specStats]
  exact countP_overdue_le_countP_unpaid asOf invoices

/-- C3: the aggregation equals the specification's closed form: counters and
sums start at zero, `totalInvoices` is the input length, each paid invoice
increments `paidInvoices` and adds its `total` to `totalRevenue`, each other
invoice increments `unpaidInvoices`, adds its `total` to `outstandingAmount`
and increments `overdueInvoices` exactly when its `dueDate` is strictly
before `asOf`. -/
theorem computeStats_functional_spec (invoices : List Invoice) (asOf : Int) :
    computeStats invoices asOf = specStats invoices asOf :=
  computeStats_eq_specStats invoices asOf

/-- C4: on the empty invoice list the aggregation returns the all-zero stats
record, for every as-of instant. -/
theorem computeStats_nil (asOf : Int) :
    computeStats [] asOf =
      { totalInvoices := 0
        paidInvoices := 0
        unpaidInvoices := 0
        overdueInvoices := 0
        totalRevenue := 0
        outstandingAmount := 0 } := rfl

/-- C5: the aggregation is order-independent: permuted input lists yield the
same stats record, for every as-of instant. -/
theorem computeStats_perm (l l' : List Invoice) (asOf : Int) (h : l.Perm l') :
    computeStats l asOf = computeStats l' asOf := by
  rw [computeStats_eq_specStats, computeStats_eq_specStats]
  unfold specStats
  ext
  · exact h.length_eq
  · exact h.countP_eq paidB
  · exact h.countP_eq unpaidB
  · exact h.countP_eq (overdueB asOf)
  · exact ((h.filter paidB).map Invoice.total).sum_eq
  · exact ((h.filter unpaidB).map Invoice.total).sum_eq

/-- Witness for C5 at a concrete two-element list and its swap. -/
theorem computeStats_perm_witness :
    ([⟨InvoiceStatus.paid, 100, 0⟩, ⟨InvoiceStatus.sent, 50, -1⟩] :
        List Invoice).Perm
        [⟨InvoiceStatus.sent, 50, -1⟩, ⟨InvoiceStatus.paid, 100, 0⟩] ∧
      computeStats [⟨InvoiceStatus.paid, 100, 0⟩, ⟨InvoiceStatus.sent, 50, -1⟩] 0
        = computeStats
            [⟨InvoiceStatus.sent, 50, -1⟩, ⟨InvoiceStatus.paid, 100, 0⟩] 0 :=
  ⟨by decide, computeStats_perm _ _ 0 (by decide)⟩

/-- C6: on the two-invoice scenario — one paid invoice with total 100, one
sent invoice with total 50 due strictly before the as-of instant — the
aggregation returns totals 2/1/1/1 and sums 100/50. -/
theorem computeStats_scenario :
    computeStats [⟨InvoiceStatus.paid, 100, 0⟩, ⟨InvoiceStatus.sent, 50, -1⟩] 0 =
      { totalInvoices := 2
        paidInvoices := 1
        unpaidInvoices := 1
        overdueInvoices := 1
        totalRevenue := 100
        outstandingAmount := 50 } := by
  norm_num [computeStats, initStats, step, List.foldl]
  simp

/-- C7: when every invoice of the input is paid, the aggregation returns
`overdueInvoices = 0`, `outstandingAmount = 0` and `unpaidInvoices = 0`,
for every as-of instant. -/
theorem computeStats_all_paid (invoices : List Invoice) (asOf : Int)
    (h : ∀ i ∈ invoices, i.status = InvoiceStatus.paid) :
    (computeStats invoices asOf).overdueInvoices = 0 ∧
      (computeStats invoices asOf).outstandingAmount = 0 ∧
      (computeStats invoices asOf).unpaidInvoices = 0 := by
  rw [computeStats_eq_specStats]
  unfold specStats
  refine ⟨List.countP_eq_zero.mpr ?_, ?_, List.countP_eq_zero.mpr ?_⟩
  · intro i hi
    simp [overdueB, h i hi]
  · have hnil : invoices.filter unpaidB = [] :=
      List.filter_eq_nil_iff.mpr (fun i hi => by simp [unpaidB, h i hi])
    simp [hnil]
  · intro i hi
    simp [unpaidB, h i hi]

/-- Witness for C7 at a concrete all-paid list. -/
theorem computeStats_all_paid_witness :
    (∀ i ∈ ([⟨InvoiceStatus.paid, 100, -5⟩, ⟨InvoiceStatus.paid, 7, 3⟩] :
        List Invoice), i.status = InvoiceStatus.paid) ∧
      ((computeStats [⟨InvoiceStatus.paid, 100, -5⟩, ⟨InvoiceStatus.paid, 7, 3⟩]
            0).overdueInvoices = 0 ∧
        (computeStats [⟨InvoiceStatus.paid, 100, -5⟩, ⟨InvoiceStatus.paid, 7, 3⟩]
            0).outstandingAmount = 0 ∧
        (computeStats [⟨InvoiceStatus.paid, 100, -5⟩, ⟨InvoiceStatus.paid, 7, 3⟩]
            0).unpaidInvoices = 0) :=
  ⟨by decide, computeStats_all_paid _ 0 (by decide)⟩

/-- C8: the output of the aggregation depends on the as-of instant — the
same invoice list yields different stats at two different instants — so
`getInvoiceStats`, which samples that instant from the global clock
(`const today = new Date()`, firestore.ts line 228) instead of taking it
from the caller, is not a deterministic function of the invoice list
alone: two calls with the same invoices can return different stats. -/
theorem computeStats_asOf_dependent :
    computeStats [⟨InvoiceStatus.sent, 50, 5⟩] 0 ≠
      computeStats [⟨InvoiceStatus.sent, 50, 5⟩] 10 := by decide

/-- The try/catch shape of `getInvoiceStats` (firestore.ts lines 216-248):
the fetch of the user's invoices is the only fallible operation; once it
yields a list, the aggregation itself is pure and an error can only be the
fetch's error propagated. -/
def getInvoiceStatsE (fetched : Except String (List Invoice)) (asOf : Int) :
    Except String InvoiceStats :=
  match fetched with
  | Except.error e => Except.error e
  | Except.ok invoices => Except.ok (computeStats invoices asOf)

/-- C9: the aggregation cannot fail on well-typed input: whenever the fetch
yields a well-typed invoice list, the computation returns a stats record
and never an error, for every as-of instant. -/
theorem computeStats_no_error (invoices : List Invoice) (asOf : Int) :
    getInvoiceStatsE (Except.ok invoices) asOf =
      Except.ok (computeStats invoices asOf) := rfl

/-- C10: for every input list of invoices and every as-of instant,
`totalRevenue + outstandingAmount` equals the sum of the `total` field over
the whole input: every invoice's `total` is counted in exactly one of the
two sums. -/
theorem computeStats_revenue_add_outstanding (invoices : List Invoice)
    (asOf : Int) :
    (computeStats invoices asOf).totalRevenue
        + (computeStats invoices asOf).outstandingAmount
      = totalOf invoices := by
  rw [computeStats_eq_specStats]
  exact sum_filter_paid_add_sum_filter_unpaid invoices
